import Mathlib

/-!
Shallow embedding of the connection/consistency core of the bingosync-api
client (src/lib/bingosync.ts): board-state normalization, snapshot
reconciliation (`_fullUpdate`), the websocket message handler of
`_createWebsocket`, the socket-key store, and the `joinRoom` happy path.

JavaScript specifics are embedded explicitly: `String.prototype.split(" ")`
keeps empty fragments, `parseInt(s, 10)` skips leading whitespace and reads a
signed digit prefix (returning NaN, modelled as `none`, when no digit is
found), out-of-range JS array index assignment extends the array with holes
(modelled as `none` entries), and `x || y` / `x ? x : y` on strings treats
the empty string as falsy.
-/

namespace BingosyncApi

/-- Connection status values of the client (`SocketStatus` in the source). -/
inductive SocketStatus
  | connecting
  | connected
  | disconnected
  | error
deriving DecidableEq, Repr

/-- Value held in a cell record under `colors`. Snapshot normalization stores a
list of color tokens; a raw delta square arriving over the socket still holds
the wire string (the handler stores `json.square` as-is). -/
inductive ColorsVal
  | str (s : String)
  | list (l : List String)
deriving DecidableEq, Repr

/-- A cell of the board (`BoardCell` in the source). -/
structure BoardCell where
  slot : String
  colors : ColorsVal
  name : String
deriving DecidableEq, Repr

/-- The board (`BoardState` in the source). Cells model a JS array whose
entries may be holes (`none`) created by out-of-range index assignment. -/
structure BoardState where
  cells : List (Option BoardCell)
deriving DecidableEq, Repr

/-- One raw record of the REST snapshot (`RawBoardState` element). -/
structure RawCell where
  colors : String
  slot : String
  name : String
deriving DecidableEq, Repr

/-- The raw REST snapshot (`RawBoardState` in the source). -/
abbrev RawBoardState := List RawCell

/-- Room join parameters (`RoomJoinParameters`), with the defaults of
`joinRoom` already applied. -/
structure RoomParams where
  roomCode : String
  playerName : String
  passphrase : String
  siteUrl : String
  socketUrl : String
deriving DecidableEq, Repr

/-- The localStorage backing the socket-key cache, as an association list. -/
abbrev TokenStore := List (String × String)

/-- localStorage.setItem: replace the binding of `key` or append a new one. -/
def setItem (store : TokenStore) (key value : String) : TokenStore :=
  match store with
  | [] => [(key, value)]
  | (k, v) :: rest =>
    if k = key then (k, value) :: rest else (k, v) :: setItem rest key value

/-- localStorage.getItem: the value bound to `key`, if any. -/
def getItem (store : TokenStore) (key : String) : Option String :=
  match store with
  | [] => none
  | (k, v) :: rest => if k = key then some v else getItem rest key

/-- The key format of `_computeLocalStorageKey`. -/
def computeLocalStorageKey (storagePfx playerName roomCode : String) : String :=
  storagePfx ++ ":socket-key:" ++ playerName ++ ":" ++ roomCode

/-- JS string truthiness fallback: `x ? x : fallback` (and `x || fallback`),
where both `null` and the empty string are falsy. -/
def jsStringOr (x : Option String) (fallback : String) : String :=
  match x with
  | some s => if s = "" then fallback else s
  | none => fallback

/-- Models `String.prototype.toLowerCase` on the basic latin range, which is
all the comparison against the all-ASCII sentinel "blank" can observe. -/
def jsToLower (s : String) : String :=
  String.mk (s.toList.map Char.toLower)

/-- Split a character sequence at every occurrence of `sep`. Like the JS
`split` with a one-character separator, empty fragments are kept and the
empty input yields one empty fragment. -/
def splitCharList (sep : Char) : List Char → List (List Char)
  | [] => [[]]
  | c :: rest =>
    match splitCharList sep rest with
    | [] => if c = sep then [[], []] else [[c]]
    | t :: ts => if c = sep then [] :: t :: ts else (c :: t) :: ts

/-- Models `String.prototype.split(" ")`. -/
def jsSplitSpace (s : String) : List String :=
  (splitCharList ' ' s.toList).map String.mk

/-- Normalization of one raw snapshot record (body of the map inside
`_processRawBoardState`): split the color string on single spaces and drop
the tokens that lowercase to "blank". -/
def processRawCell (rawCell : RawCell) : BoardCell :=
  { colors :=
      ColorsVal.list
        ((jsSplitSpace rawCell.colors).filter fun color => jsToLower color != "blank")
    slot := rawCell.slot
    name := rawCell.name }

/-- Normalization of a full raw snapshot (`_processRawBoardState`). -/
def processRawBoardState (rawBoardState : RawBoardState) : BoardState :=
  { cells := rawBoardState.map fun rawCell => some (processRawCell rawCell) }

/-- Decimal value of a list of digit characters. -/
def natOfDigits (ds : List Char) : Nat :=
  ds.foldl (fun acc d => acc * 10 + (d.toNat - 48)) 0

/-- Models `parseInt(s, 10)` on the character sequence of `s`: skip leading
whitespace, read an optional sign and then the longest digit prefix; `none`
models NaN (no digit found). -/
def jsParseIntList (cs : List Char) : Option Int :=
  match cs.dropWhile Char.isWhitespace with
  | [] => none
  | c :: rest =>
    if c = '-' then
      let ds := rest.takeWhile Char.isDigit
      if ds.isEmpty then none else some (-(natOfDigits ds : Int))
    else if c = '+' then
      let ds := rest.takeWhile Char.isDigit
      if ds.isEmpty then none else some ((natOfDigits ds : Int))
    else
      let ds := (c :: rest).takeWhile Char.isDigit
      if ds.isEmpty then none else some ((natOfDigits ds : Int))

/-- Models JS array index assignment `cells[i] = v`: a negative index is a
plain property write (the array's indexed entries are unchanged), an index
below the length overwrites in place, and a larger index extends the array,
padding with holes. -/
def jsArraySet (cells : List (Option BoardCell)) (i : Int) (v : BoardCell) :
    List (Option BoardCell) :=
  if i < 0 then cells
  else
    let n := i.toNat
    if n < cells.length then cells.set n (some v)
    else cells ++ List.replicate (n - cells.length) none ++ [some v]

/-- Client state: the fields of the `Bingosync` class that the connection
core reads and writes, plus the two per-attempt variables of
`_createWebsocket` (`settled`, and the captured `socketKey` argument). -/
structure Client where
  status : SocketStatus
  roomParams : RoomParams
  boardState : Option BoardState
  fullUpdateIntervalActive : Bool
  storagePfx : String
  maxSocketAuthAttempts : Nat
  numSocketAuthAttempts : Nat
  websocketPresent : Bool
  settled : Bool
  socketKey : String
  tokenStore : TokenStore
deriving DecidableEq, Repr

/-- Observable effects of the embedded operations: the two emitted events,
frames sent on the socket, and settling of the pending connect promise. -/
inductive Event
  | statusChanged (s : SocketStatus)
  | boardChanged (b : BoardState)
  | sendSocketKey (key : String)
  | promiseResolved
  | promiseRejected (msg : String)
deriving DecidableEq, Repr

/-- An inbound websocket frame after the JSON.parse attempt: unparseable
payload, an error message (with its optional `error` field), a goal delta
carrying its `square`, or any other JSON message. -/
inductive SocketMsg
  | malformed
  | errorMsg (error : Option String)
  | goalMsg (square : BoardCell)
  | otherMsg (type : String)
deriving DecidableEq, Repr

/-- The server text that marks a recoverable authentication rejection. -/
def authRejectText : String := "unable to authenticate, try refreshing"

/-- True of the frames the handler treats as authenticated successes (any
JSON frame whose type is not "error"). -/
def isSuccessFrame : SocketMsg → Bool
  | SocketMsg.goalMsg _ => true
  | SocketMsg.otherMsg _ => true
  | _ => false

/-- First-success block of the message handler: on the first non-error frame
of the attempt, persist the attempt's captured `socketKey`, set status
`connected`, mark the promise settled and resolve it. -/
def settleOnSuccess (c : Client) : Client × List Event :=
  if c.settled then (c, [])
  else
    ({ c with
        tokenStore :=
          setItem c.tokenStore
            (computeLocalStorageKey c.storagePfx c.roomParams.playerName
              c.roomParams.roomCode)
            c.socketKey
        status := SocketStatus.connected
        settled := true },
      [Event.statusChanged SocketStatus.connected, Event.promiseResolved])

/-- The `onmessage` handler of `_createWebsocket`. `freshKey` is the token
`getNewSocketKey` would return on the auth-retry path. -/
def onMessage (c : Client) (msg : SocketMsg) (freshKey : String) :
    Client × List Event :=
  match msg with
  | SocketMsg.malformed => (c, [])
  | SocketMsg.errorMsg err =>
    if err = some authRejectText ∧
        c.numSocketAuthAttempts < c.maxSocketAuthAttempts then
      if c.websocketPresent then
        ({ c with numSocketAuthAttempts := c.numSocketAuthAttempts + 1 },
          [Event.sendSocketKey freshKey])
      else
        (c, [Event.promiseRejected "The websocket disappeared when it should not have"])
    else
      let cDown :=
        { c with
            fullUpdateIntervalActive := false
            websocketPresent := false
            status := SocketStatus.error }
      if c.settled then
        (cDown, [Event.statusChanged SocketStatus.error])
      else
        ({ cDown with settled := true },
          [Event.statusChanged SocketStatus.error,
           Event.promiseRejected (jsStringOr err "unknown error")])
  | SocketMsg.goalMsg square =>
    let step := settleOnSuccess c
    let c2 := { step.1 with numSocketAuthAttempts := 0 }
    match c2.boardState with
    | none => (c2, step.2)
    | some b =>
      let newCells :=
        match jsParseIntList (square.slot.toList.drop 4) with
        | none => b.cells
        | some i => jsArraySet b.cells (i - 1) square
      let nb : BoardState := { cells := newCells }
      ({ c2 with boardState := some nb }, step.2 ++ [Event.boardChanged nb])
  | SocketMsg.otherMsg _ =>
    let step := settleOnSuccess c
    ({ step.1 with numSocketAuthAttempts := 0 }, step.2)

/-- Run the message handler over a sequence of inbound frames, each paired
with the fresh token its retry path would fetch, accumulating events. -/
def runMsgs (c : Client) (msgs : List (SocketMsg × String)) :
    Client × List Event :=
  match msgs with
  | [] => (c, [])
  | (m, freshKey) :: rest =>
    let step := onMessage c m freshKey
    let next := runMsgs step.1 rest
    (next.1, step.2 ++ next.2)

/-- Resolution of one `_fullUpdate` call: `requestedRoomCode` was captured at
fetch start, `raw` is the response. The result is dropped when the session
has moved rooms, and when the normalized snapshot deep-equals the current
board; otherwise the board is replaced and `board-changed` fires. -/
def fullUpdateResolve (requestedRoomCode : String) (raw : RawBoardState)
    (c : Client) : Client × List Event :=
  if requestedRoomCode ≠ c.roomParams.roomCode then (c, [])
  else
    let newBoardState := processRawBoardState raw
    if c.boardState = some newBoardState then (c, [])
    else
      ({ c with boardState := some newBoardState },
        [Event.boardChanged newBoardState])

/-- The `joinRoom` happy path through the first inbound socket frame:
status `connecting`, teardown, socket-key resolution (cached key, else the
`freshKey` the Token Acquirer returns), `roomParams` commit, status
`connected`, timer start, one awaited full update, then `_createWebsocket`
(status `connecting`, open, first key send) and the first frame. -/
def joinRoomFirstFrame (c : Client) (p : RoomParams) (freshKey : String)
    (raw : RawBoardState) (firstFrame : SocketMsg) (retryKey : String) :
    Client × List Event :=
  let c1 :=
    { c with
        status := SocketStatus.connecting
        fullUpdateIntervalActive := false
        websocketPresent := false }
  let socketKey :=
    jsStringOr
      (getItem c1.tokenStore
        (computeLocalStorageKey c1.storagePfx p.playerName p.roomCode))
      freshKey
  let c2 := { c1 with roomParams := p, status := SocketStatus.connected }
  let c3 := { c2 with fullUpdateIntervalActive := true }
  let full := fullUpdateResolve p.roomCode raw c3
  let c5 :=
    { full.1 with
        status := SocketStatus.connecting
        websocketPresent := true
        settled := false
        socketKey := socketKey }
  let msg := onMessage c5 firstFrame retryKey
  (msg.1,
    [Event.statusChanged SocketStatus.connecting,
     Event.statusChanged SocketStatus.connected] ++
    full.2 ++
    [Event.statusChanged SocketStatus.connecting,
     Event.sendSocketKey socketKey] ++
    msg.2)

/-- The statuses announced by a list of events, in order. -/
def statusEvents (evs : List Event) : List SocketStatus :=
  evs.filterMap fun e =>
    match e with
    | Event.statusChanged s => some s
    | _ => none

/-- How many board-changed events a list of events holds. -/
def boardChangedCount (evs : List Event) : Nat :=
  (evs.filter fun e =>
    match e with
    | Event.boardChanged _ => true
    | _ => false).length

/-! ## Sample states used by closed theorems -/

/-- A session already connected to room B as Alice, board populated. -/
def clientRoomB : Client :=
  { status := SocketStatus.connected
    roomParams :=
      { roomCode := "B"
        playerName := "Alice"
        passphrase := ""
        siteUrl := "https://bingosync.com"
        socketUrl := "wss://sockets.bingosync.com" }
    boardState := some { cells := [] }
    fullUpdateIntervalActive := true
    storagePfx := "bingosync-api"
    maxSocketAuthAttempts := 3
    numSocketAuthAttempts := 0
    websocketPresent := true
    settled := true
    socketKey := "key0"
    tokenStore := [] }

/-- A session connected to room R1 with an empty board snapshot applied. -/
def clientRoomR1 : Client :=
  { clientRoomB with
      roomParams :=
        { roomCode := "R1"
          playerName := "Alice"
          passphrase := ""
          siteUrl := "https://bingosync.com"
          socketUrl := "wss://sockets.bingosync.com" } }

/-! ## Claim theorems -/

/-- Claim C3, counterexample: the color string "red  blue" (two spaces) and
the empty color string both leave empty-string tokens in the normalized
colors list, because `split(" ")` keeps empty fragments and the filter only
removes the blank sentinel. -/
theorem C3_counterexample :
    (processRawCell { colors := "red  blue", slot := "slot1", name := "g" }).colors =
        ColorsVal.list ["red", "", "blue"] ∧
      (processRawCell { colors := "", slot := "slot2", name := "h" }).colors =
        ColorsVal.list [""] := by
  exact ⟨rfl, rfl⟩

/-- Claim C3, amended: every color token of a normalized snapshot cell is
distinct from the sentinel "blank" case-insensitively; empty-string tokens,
however, may remain. -/
theorem C3_amended (raw : RawBoardState) (cell : BoardCell) (l : List String)
    (hc : some cell ∈ (processRawBoardState raw).cells)
    (hl : cell.colors = ColorsVal.list l) :
    ∀ t ∈ l, jsToLower t ≠ "blank" := by
  intro t ht
  simp only [processRawBoardState, List.mem_map] at hc
  obtain ⟨r, _, heq⟩ := hc
  have hcell : processRawCell r = cell := Option.some.inj heq
  subst hcell
  simp only [processRawCell] at hl
  have hl2 :
      (jsSplitSpace r.colors).filter (fun color => jsToLower color != "blank") = l := by
    injection hl
  rw [← hl2] at ht
  have := (List.mem_filter.mp ht).2
  simpa using this

/-- Claim C3, witness: in the snapshot record with colors "red blank", the
surviving token "red" does not lowercase to "blank". -/
theorem C3_witness : jsToLower "red" ≠ "blank" :=
  C3_amended [{ colors := "red blank", slot := "slot1", name := "g" }]
    (processRawCell { colors := "red blank", slot := "slot1", name := "g" })
    ["red"] (by decide) (by decide) "red" (by decide)

/-- Claim C6: snapshot reconciliation with noise suppression. A snapshot
whose normalized form deep-equals the current board is a strict no-op, and
resolving the same raw snapshot twice fires at most one board-changed. -/
theorem C6_theorem :
    (∀ (rc : String) (raw : RawBoardState) (c : Client),
        c.boardState = some (processRawBoardState raw) →
        fullUpdateResolve rc raw c = (c, [])) ∧
    (∀ (rc : String) (raw : RawBoardState) (c : Client),
        boardChangedCount
          ((fullUpdateResolve rc raw c).2 ++
            (fullUpdateResolve rc raw (fullUpdateResolve rc raw c).1).2) ≤ 1) := by
  constructor
  · intro rc raw c h
    by_cases hrc : rc ≠ c.roomParams.roomCode
    · simp [fullUpdateResolve, hrc]
    · simp [fullUpdateResolve, hrc, h]
  · intro rc raw c
    by_cases hrc : rc ≠ c.roomParams.roomCode
    · simp [fullUpdateResolve, hrc, boardChangedCount]
    · by_cases hb : c.boardState = some (processRawBoardState raw)
      · simp [fullUpdateResolve, hrc, hb, boardChangedCount]
      · simp [fullUpdateResolve, hrc, hb, boardChangedCount]

/-- Claim C6, witness: on a session whose board already equals the
normalized empty snapshot, resolving that snapshot changes nothing and
emits nothing. -/
theorem C6_witness :
    clientRoomR1.boardState = some (processRawBoardState []) ∧
      fullUpdateResolve "R1" [] clientRoomR1 = (clientRoomR1, []) :=
  ⟨by decide, C6_theorem.1 "R1" [] clientRoomR1 (by decide)⟩

/-- Claim C7: a snapshot fetch whose captured room code differs from the
session's current room code at resolve time is dropped whole: no state
change, no event. -/
theorem C7_theorem (requestedRoomCode : String) (raw : RawBoardState)
    (c : Client) (h : requestedRoomCode ≠ c.roomParams.roomCode) :
    fullUpdateResolve requestedRoomCode raw c = (c, []) := by
  simp [fullUpdateResolve, h]

/-- Claim C7, witness: a fetch captured for room A resolving while the
session is in room B is discarded. -/
theorem C7_witness :
    "A" ≠ clientRoomB.roomParams.roomCode ∧
      fullUpdateResolve "A" [{ colors := "red", slot := "slot1", name := "g" }]
        clientRoomB = (clientRoomB, []) :=
  ⟨by decide,
    C7_theorem "A" [{ colors := "red", slot := "slot1", name := "g" }]
      clientRoomB (by decide)⟩

/-- Claim C10: a frame whose payload fails JSON.parse makes the handler
return before touching anything: same client state (status, board, counter,
token store, settled flag) and no events. -/
theorem C10_theorem (c : Client) (freshKey : String) :
    onMessage c SocketMsg.malformed freshKey = (c, []) := rfl

/-! ## Digit-parsing lemmas for the goal-delta slot index -/

/-- A digit character is not whitespace. -/
lemma digit_not_whitespace (c : Char) (h : c.isDigit = true) :
    c.isWhitespace = false := by
  cases hw : c.isWhitespace
  · rfl
  · exfalso
    have hcases : ((c = ' ' ∨ c = '\t') ∨ c = '\r') ∨ c = '\n' := by
      simpa [Char.isWhitespace] using hw
    rcases hcases with ((h1 | h1) | h1) | h1 <;> subst h1 <;> exact absurd h (by decide)

/-- A digit character is not the minus sign. -/
lemma digit_ne_dash (c : Char) (h : c.isDigit = true) : c ≠ '-' := by
  intro he
  subst he
  exact absurd h (by decide)

/-- A digit character is not the plus sign. -/
lemma digit_ne_plus (c : Char) (h : c.isDigit = true) : c ≠ '+' := by
  intro he
  subst he
  exact absurd h (by decide)

/-- takeWhile keeps an all-digit list whole. -/
lemma takeWhile_all_digits (ds : List Char) (h : ∀ d ∈ ds, d.isDigit = true) :
    ds.takeWhile Char.isDigit = ds := by
  induction ds with
  | nil => rfl
  | cons d rest ih =>
    rw [List.takeWhile_cons_of_pos (h d (by simp))]
    rw [ih fun x hx => h x (by simp [hx])]

/-- parseInt reads a nonempty all-digit character list as its decimal value. -/
lemma jsParseIntList_digits (ds : List Char) (hne : ds ≠ [])
    (hdig : ∀ d ∈ ds, d.isDigit = true) :
    jsParseIntList ds = some ((natOfDigits ds : Nat) : Int) := by
  cases ds with
  | nil => exact absurd rfl hne
  | cons d rest =>
    have hd : d.isDigit = true := hdig d (by simp)
    have hdrop : (d :: rest).dropWhile Char.isWhitespace = d :: rest :=
      List.dropWhile_cons_of_neg (by simp [digit_not_whitespace d hd])
    have htake : (d :: rest).takeWhile Char.isDigit = d :: rest :=
      takeWhile_all_digits _ hdig
    unfold jsParseIntList
    rw [hdrop]
    simp [digit_ne_dash d hd, digit_ne_plus d hd, htake]

/-- A slot identifier made of a 4-character lead followed by the decimal
digits of `n` parses, after the `slice(4)`, to `n`. -/
lemma parse_slot_index (square : BoardCell) (p ds : List Char) (n : Nat)
    (hslot : square.slot.toList = p ++ ds) (hp : p.length = 4)
    (hne : ds ≠ []) (hdig : ∀ d ∈ ds, d.isDigit = true)
    (hval : natOfDigits ds = n) :
    jsParseIntList (square.slot.toList.drop 4) = some ((n : Nat) : Int) := by
  rw [hslot, ← hp, List.drop_left, jsParseIntList_digits ds hne hdig, hval]

/-- The settle-on-success block leaves the board untouched. -/
lemma settleOnSuccess_boardState (c : Client) :
    (settleOnSuccess c).1.boardState = c.boardState := by
  unfold settleOnSuccess
  split <;> rfl

/-- Effect of a goal delta whose slot parses to `n`: the board becomes the
JS index assignment of the square at `n - 1`, and board-changed fires with
the new board. -/
lemma onMessage_goal_board (c : Client) (b : BoardState) (square : BoardCell)
    (freshKey : String) (n : Nat)
    (hb : c.boardState = some b)
    (hparse : jsParseIntList (square.slot.toList.drop 4) = some ((n : Nat) : Int)) :
    (onMessage c (SocketMsg.goalMsg square) freshKey).1.boardState =
      some { cells := jsArraySet b.cells ((n : Int) - 1) square } ∧
    Event.boardChanged { cells := jsArraySet b.cells ((n : Int) - 1) square } ∈
      (onMessage c (SocketMsg.goalMsg square) freshKey).2 := by
  have hparse2 : jsParseIntList (square.slot.data.drop 4) = some ((n : Nat) : Int) := hparse
  by_cases hs : c.settled
  · constructor <;> simp [onMessage, settleOnSuccess, hs, hb, hparse2]
  · constructor <;> simp [onMessage, settleOnSuccess, hs, hb, hparse2]

/-- Claim C4: a goal delta whose square's slot is a 4-character lead
followed by the decimal number `n ≥ 1` overwrites position `n - 1` of the
current cells by JS index assignment — whatever the array length — and
fires board-changed with the new board, with no comparison against the
prior cell (the conclusion holds for every prior board `b`). -/
theorem C4_theorem (c : Client) (b : BoardState) (square : BoardCell)
    (freshKey : String) (p ds : List Char) (n : Nat)
    (hb : c.boardState = some b)
    (hslot : square.slot.toList = p ++ ds) (hp : p.length = 4)
    (hne : ds ≠ []) (hdig : ∀ d ∈ ds, d.isDigit = true)
    (hval : natOfDigits ds = n) (_hpos : 1 ≤ n) :
    (onMessage c (SocketMsg.goalMsg square) freshKey).1.boardState =
      some { cells := jsArraySet b.cells ((n : Int) - 1) square } ∧
    Event.boardChanged { cells := jsArraySet b.cells ((n : Int) - 1) square } ∈
      (onMessage c (SocketMsg.goalMsg square) freshKey).2 :=
  onMessage_goal_board c b square freshKey n hb
    (parse_slot_index square p ds n hslot hp hne hdig hval)

/-- The delta square used in the C4 witness. -/
def squareSlot7 : BoardCell :=
  { slot := "slot7", colors := ColorsVal.str "red", name := "g7" }

/-- Claim C4, witness: on an empty board, a delta naming slot7 writes
position 6, extending the array, and fires board-changed. -/
theorem C4_witness :
    (onMessage clientRoomB (SocketMsg.goalMsg squareSlot7) "").1.boardState =
      some { cells := jsArraySet ({ cells := [] } : BoardState).cells ((7 : Int) - 1) squareSlot7 } ∧
    Event.boardChanged
        { cells := jsArraySet ({ cells := [] } : BoardState).cells ((7 : Int) - 1) squareSlot7 } ∈
      (onMessage clientRoomB (SocketMsg.goalMsg squareSlot7) "").2 :=
  C4_theorem clientRoomB { cells := [] } squareSlot7 "" "slot".toList ['7'] 7
    rfl (by decide) (by decide) (by decide) (by decide) (by decide) (by decide)

/-- A one-cell board cell used by the C5 theorems. -/
def cellB1 : BoardCell :=
  { slot := "slot1", colors := ColorsVal.list ["red"], name := "g1" }

/-- A delta square naming slot3, used by the C5 counterexample. -/
def squareSlot3 : BoardCell :=
  { slot := "slot3", colors := ColorsVal.str "blue", name := "g3" }

/-- A delta square naming slot1, used by the C5 witness. -/
def squareSlot1 : BoardCell :=
  { slot := "slot1", colors := ColorsVal.str "green", name := "g1b" }

/-- A session in room B whose populated board holds exactly one cell. -/
def clientOneCell : Client :=
  { clientRoomB with boardState := some { cells := [some cellB1] } }

/-- Claim C5, counterexample: on a populated one-cell board, a goal delta
naming slot3 grows the cell sequence to length 3 (adding a hole and a new
cell whose slot is new), and a two-record snapshot replaces the board with
a two-cell sequence — so neither the length nor the slot set is preserved. -/
theorem C5_counterexample :
    clientOneCell.boardState = some { cells := [some cellB1] } ∧
    (onMessage clientOneCell (SocketMsg.goalMsg squareSlot3) "").1.boardState =
      some { cells := [some cellB1, none, some squareSlot3] } ∧
    (fullUpdateResolve "B"
        [{ colors := "red", slot := "slot1", name := "g1" },
         { colors := "blue", slot := "slot2", name := "g2" }]
        clientOneCell).1.boardState =
      some { cells :=
        [some { slot := "slot1", colors := ColorsVal.list ["red"], name := "g1" },
         some { slot := "slot2", colors := ColorsVal.list ["blue"], name := "g2" }] } := by
  refine ⟨rfl, ?_, ?_⟩ <;> decide

/-- Claim C5, amended: the length of a populated board's cell sequence is
preserved by a goal delta whose 1-based slot number is within range
(out-of-range deltas extend the sequence, as the counterexample shows, and
the stored cell — including its slot — is replaced by the delta square);
snapshot reconciliation either leaves the board untouched or replaces it
wholesale with the normalized snapshot. -/
theorem C5_amended :
    (∀ (c : Client) (b : BoardState) (square : BoardCell) (freshKey : String)
        (p ds : List Char) (n : Nat),
        c.boardState = some b →
        square.slot.toList = p ++ ds → p.length = 4 → ds ≠ [] →
        (∀ d ∈ ds, d.isDigit = true) → natOfDigits ds = n →
        1 ≤ n → n ≤ b.cells.length →
        (onMessage c (SocketMsg.goalMsg square) freshKey).1.boardState =
          some { cells := jsArraySet b.cells ((n : Int) - 1) square } ∧
        (jsArraySet b.cells ((n : Int) - 1) square).length = b.cells.length) ∧
    (∀ (rc : String) (raw : RawBoardState) (c : Client),
        (fullUpdateResolve rc raw c).1.boardState = c.boardState ∨
        (fullUpdateResolve rc raw c).1.boardState = some (processRawBoardState raw)) := by
  constructor
  · intro c b square freshKey p ds n hb hslot hp hne hdig hval hpos hlen
    refine ⟨(onMessage_goal_board c b square freshKey n hb
      (parse_slot_index square p ds n hslot hp hne hdig hval)).1, ?_⟩
    have h0 : ¬((n : Int) - 1 < 0) := by omega
    have ht : ((n : Int) - 1).toNat = n - 1 := by omega
    have hlt : n - 1 < b.cells.length := by omega
    simp [jsArraySet, h0, ht, hlt]
  · intro rc raw c
    by_cases hrc : rc ≠ c.roomParams.roomCode
    · left
      simp [fullUpdateResolve, hrc]
    · by_cases hbe : c.boardState = some (processRawBoardState raw)
      · left
        simp [fullUpdateResolve, hrc, hbe]
      · right
        simp [fullUpdateResolve, hrc, hbe]

/-- Claim C5, witness: on the one-cell board, a delta naming slot1 stays in
range and keeps the length at 1. -/
theorem C5_witness :
    (onMessage clientOneCell (SocketMsg.goalMsg squareSlot1) "").1.boardState =
      some { cells :=
        jsArraySet ({ cells := [some cellB1] } : BoardState).cells ((1 : Int) - 1) squareSlot1 } ∧
    (jsArraySet ({ cells := [some cellB1] } : BoardState).cells
        ((1 : Int) - 1) squareSlot1).length =
      ({ cells := [some cellB1] } : BoardState).cells.length :=
  C5_amended.1 clientOneCell { cells := [some cellB1] } squareSlot1 "" "slot".toList ['1'] 1
    rfl (by decide) (by decide) (by decide) (by decide) (by decide) (by decide) (by decide)

/-- A fresh connection attempt in room B: socket open, captured key "k0"
already sent, promise pending, counter 0, store empty. -/
def clientAttempt : Client :=
  { clientRoomB with
      status := SocketStatus.connecting
      settled := false
      socketKey := "k0"
      numSocketAuthAttempts := 0 }

/-! ## Message-sequence lemmas for the auth-retry loop -/

/-- An auth rejection while the counter is below the maximum: bump the
counter and retransmit a fresh key on the open transport; nothing else
changes and the promise stays pending. -/
lemma onMessage_authReject_retry (c : Client) (freshKey : String)
    (hws : c.websocketPresent = true)
    (hlt : c.numSocketAuthAttempts < c.maxSocketAuthAttempts) :
    onMessage c (SocketMsg.errorMsg (some authRejectText)) freshKey =
      ({ c with numSocketAuthAttempts := c.numSocketAuthAttempts + 1 },
        [Event.sendSocketKey freshKey]) := by
  simp [onMessage, hws, hlt]

/-- An auth rejection once the counter has reached the maximum, with the
promise still pending: tear down, set status error, reject with the server
text. -/
lemma onMessage_authReject_fatal (c : Client) (freshKey : String)
    (hge : c.maxSocketAuthAttempts ≤ c.numSocketAuthAttempts)
    (hset : c.settled = false) :
    onMessage c (SocketMsg.errorMsg (some authRejectText)) freshKey =
      ({ c with
          fullUpdateIntervalActive := false
          websocketPresent := false
          status := SocketStatus.error
          settled := true },
        [Event.statusChanged SocketStatus.error,
         Event.promiseRejected authRejectText]) := by
  have hnl : ¬(c.numSocketAuthAttempts < c.maxSocketAuthAttempts) := by omega
  simp [onMessage, hnl, hset, jsStringOr, authRejectText]

/-- Running a batch of messages splits at an append. -/
lemma runMsgs_append (c : Client) (l1 l2 : List (SocketMsg × String)) :
    runMsgs c (l1 ++ l2) =
      ((runMsgs (runMsgs c l1).1 l2).1,
        (runMsgs c l1).2 ++ (runMsgs (runMsgs c l1).1 l2).2) := by
  induction l1 generalizing c with
  | nil => simp [runMsgs]
  | cons hd rest ih =>
    obtain ⟨m, fk⟩ := hd
    simp [runMsgs, ih]

/-- Pumping the retry loop: `k` consecutive auth rejections that stay within
the maximum only raise the counter to `t` and send `k` fresh keys. -/
lemma runMsgs_authReject_pump (freshKey : String) (k : Nat) :
    ∀ (c : Client) (t : Nat), c.websocketPresent = true →
      t = c.numSocketAuthAttempts + k →
      t ≤ c.maxSocketAuthAttempts →
      runMsgs c (List.replicate k (SocketMsg.errorMsg (some authRejectText), freshKey)) =
        ({ c with numSocketAuthAttempts := t },
          List.replicate k (Event.sendSocketKey freshKey)) := by
  induction k with
  | zero =>
    intro c t hws ht _
    subst ht
    simp [runMsgs]
  | succ k ih =>
    intro c t hws ht hle
    rw [List.replicate_succ, List.replicate_succ]
    simp only [runMsgs]
    rw [onMessage_authReject_retry c freshKey hws (by omega)]
    rw [ih { c with numSocketAuthAttempts := c.numSocketAuthAttempts + 1 } t hws
      (by simp; omega) (by simp; omega)]
    simp

/-- Claim C1, counterexample: with the default maximum of 3, three
consecutive auth rejections do NOT put the channel in error — the promise is
still pending and the third retry is in flight (the code only aborts on the
rejection after the maximum, because the counter is compared before being
incremented and the initial send is not counted). -/
theorem C1_counterexample :
    (runMsgs clientAttempt (List.replicate clientAttempt.maxSocketAuthAttempts
        (SocketMsg.errorMsg (some authRejectText), "k1"))).1.status ≠ SocketStatus.error ∧
    (runMsgs clientAttempt (List.replicate clientAttempt.maxSocketAuthAttempts
        (SocketMsg.errorMsg (some authRejectText), "k1"))).1.settled = false ∧
    Event.promiseRejected authRejectText ∉
      (runMsgs clientAttempt (List.replicate clientAttempt.maxSocketAuthAttempts
        (SocketMsg.errorMsg (some authRejectText), "k1"))).2 := by
  refine ⟨?_, ?_, ?_⟩ <;> decide

/-- Claim C1, amended: from a fresh attempt (counter 0, promise pending),
it takes `maxSocketAuthAttempts + 1` consecutive auth rejections to set
status error, settle and reject the promise; and, in every client state
whatever the current counter value, any non-error frame resets the counter
to 0. -/
theorem C1_amended :
    (∀ (c : Client) (freshKey : String),
      c.websocketPresent = true →
      c.numSocketAuthAttempts = 0 →
      c.settled = false →
      (runMsgs c (List.replicate (c.maxSocketAuthAttempts + 1)
        (SocketMsg.errorMsg (some authRejectText), freshKey))).1.status = SocketStatus.error ∧
      (runMsgs c (List.replicate (c.maxSocketAuthAttempts + 1)
        (SocketMsg.errorMsg (some authRejectText), freshKey))).1.settled = true ∧
      Event.promiseRejected authRejectText ∈
        (runMsgs c (List.replicate (c.maxSocketAuthAttempts + 1)
          (SocketMsg.errorMsg (some authRejectText), freshKey))).2) ∧
    (∀ (c : Client) (m : SocketMsg) (fk : String), isSuccessFrame m = true →
      (onMessage c m fk).1.numSocketAuthAttempts = 0) := by
  constructor
  · intro c freshKey hws h0 hset
    have hpump := runMsgs_authReject_pump freshKey c.maxSocketAuthAttempts c
      c.maxSocketAuthAttempts hws (by omega) (by omega)
    have hfatal := onMessage_authReject_fatal
      { c with numSocketAuthAttempts := c.maxSocketAuthAttempts } freshKey
      (by simp) (by simp [hset])
    rw [List.replicate_succ', runMsgs_append, hpump]
    simp only [runMsgs]
    rw [hfatal]
    refine ⟨by simp, by simp, ?_⟩
    simp
  · intro c m fk hm
    cases m with
    | malformed => simp [isSuccessFrame] at hm
    | errorMsg err => simp [isSuccessFrame] at hm
    | otherMsg t => simp [onMessage]
    | goalMsg square =>
      cases hbs : (settleOnSuccess c).1.boardState with
      | none => simp [onMessage, hbs]
      | some b => simp [onMessage, hbs]

/-- Claim C1, witness: with the default maximum 3, four consecutive
rejections from a fresh attempt do end in error, and a success frame
arriving while the counter stands at 2 resets it to 0. -/
theorem C1_witness :
    (runMsgs clientAttempt (List.replicate (clientAttempt.maxSocketAuthAttempts + 1)
        (SocketMsg.errorMsg (some authRejectText), "k1"))).1.status = SocketStatus.error ∧
    (onMessage { clientAttempt with numSocketAuthAttempts := 2 }
        (SocketMsg.otherMsg "chat") "k2").1.numSocketAuthAttempts = 0 :=
  ⟨(C1_amended.1 clientAttempt "k1" rfl rfl rfl).1,
    C1_amended.2 { clientAttempt with numSocketAuthAttempts := 2 }
      (SocketMsg.otherMsg "chat") "k2" rfl⟩

/-- Claim C2, counterexample: starting a fresh attempt whose captured key is
"k0", one auth rejection (answered by fetching and sending fresh key "k1")
followed by the authentication success persists "k0" — the key the server
just rejected — not the key "k1" that actually authenticated. -/
theorem C2_counterexample :
    Event.sendSocketKey "k1" ∈
      (runMsgs clientAttempt
        [(SocketMsg.errorMsg (some authRejectText), "k1"),
         (SocketMsg.otherMsg "chat", "")]).2 ∧
    getItem (runMsgs clientAttempt
        [(SocketMsg.errorMsg (some authRejectText), "k1"),
         (SocketMsg.otherMsg "chat", "")]).1.tokenStore
      (computeLocalStorageKey "bingosync-api" "Alice" "B") = some "k0" ∧
    ("k0" : String) ≠ "k1" := by
  refine ⟨?_, ?_, ?_⟩ <;> decide

/-- Claim C2, amended: the Token Store is written exactly on the first
non-error frame of the attempt and never on any other path; the value
written is the attempt's original captured `socketKey`, which on the
token-refresh retry path is not the token that authenticated. -/
theorem C2_amended (c : Client) (m : SocketMsg) (freshKey : String) :
    (onMessage c m freshKey).1.tokenStore =
      if isSuccessFrame m && !c.settled then
        setItem c.tokenStore
          (computeLocalStorageKey c.storagePfx c.roomParams.playerName
            c.roomParams.roomCode)
          c.socketKey
      else c.tokenStore := by
  cases m with
  | malformed => simp [onMessage, isSuccessFrame]
  | errorMsg err =>
    simp only [onMessage, isSuccessFrame]
    split
    · split <;> simp
    · split <;> simp
  | otherMsg t =>
    by_cases hs : c.settled <;> simp [onMessage, settleOnSuccess, hs, isSuccessFrame]
  | goalMsg square =>
    by_cases hs : c.settled
    · cases hbs : c.boardState with
      | none => simp [onMessage, settleOnSuccess, hs, hbs, isSuccessFrame]
      | some b => simp [onMessage, settleOnSuccess, hs, hbs, isSuccessFrame]
    · cases hbs : c.boardState with
      | none => simp [onMessage, settleOnSuccess, hs, hbs, isSuccessFrame]
      | some b => simp [onMessage, settleOnSuccess, hs, hbs, isSuccessFrame]

/-- Lookup after a store write finds the written value. -/
lemma getItem_setItem (store : TokenStore) (key value : String) :
    getItem (setItem store key value) key = some value := by
  induction store with
  | nil => simp [setItem, getItem]
  | cons kv rest ih =>
    obtain ⟨k, v⟩ := kv
    by_cases h : k = key <;> simp [setItem, getItem, h, ih]

/-- Claim C9: when the attempt's initial key is rejected and a fresh key
`freshKey` is sent and authenticates, the Token Store ends up holding the
attempt's original captured `socketKey` — the rejected one — under the
player/room key, not `freshKey`. -/
theorem C9_theorem (c : Client) (freshKey fk2 t : String)
    (hws : c.websocketPresent = true)
    (hlt : c.numSocketAuthAttempts < c.maxSocketAuthAttempts)
    (hset : c.settled = false) :
    Event.sendSocketKey freshKey ∈
      (runMsgs c [(SocketMsg.errorMsg (some authRejectText), freshKey),
        (SocketMsg.otherMsg t, fk2)]).2 ∧
    getItem (runMsgs c [(SocketMsg.errorMsg (some authRejectText), freshKey),
        (SocketMsg.otherMsg t, fk2)]).1.tokenStore
      (computeLocalStorageKey c.storagePfx c.roomParams.playerName
        c.roomParams.roomCode) = some c.socketKey := by
  simp only [runMsgs]
  rw [onMessage_authReject_retry c freshKey hws hlt]
  simp [onMessage, settleOnSuccess, hset, getItem_setItem]

/-- Claim C9, witness: concrete retry-then-success run starting from the
fresh attempt whose captured key is "k0". -/
theorem C9_witness :
    Event.sendSocketKey "k1" ∈
      (runMsgs clientAttempt [(SocketMsg.errorMsg (some authRejectText), "k1"),
        (SocketMsg.otherMsg "goalpost", "k2")]).2 ∧
    getItem (runMsgs clientAttempt [(SocketMsg.errorMsg (some authRejectText), "k1"),
        (SocketMsg.otherMsg "goalpost", "k2")]).1.tokenStore
      (computeLocalStorageKey clientAttempt.storagePfx
        clientAttempt.roomParams.playerName clientAttempt.roomParams.roomCode) =
      some clientAttempt.socketKey :=
  C9_theorem clientAttempt "k1" "k2" "goalpost" (by decide) (by decide) (by decide)

/-! ## The joinRoom status trace -/

/-- Snapshot reconciliation never announces a status. -/
lemma statusEvents_fullUpdateResolve (rc : String) (raw : RawBoardState)
    (c : Client) :
    statusEvents (fullUpdateResolve rc raw c).2 = [] := by
  by_cases h1 : rc ≠ c.roomParams.roomCode
  · simp [fullUpdateResolve, h1, statusEvents]
  · by_cases h2 : c.boardState = some (processRawBoardState raw)
    · simp [fullUpdateResolve, h1, h2, statusEvents]
    · simp [fullUpdateResolve, h1, h2, statusEvents]

/-- A non-error, non-goal frame on a pending attempt announces `connected`
and resolves, and nothing else. -/
lemma onMessage_other_events (c : Client) (t fk : String)
    (hset : c.settled = false) :
    (onMessage c (SocketMsg.otherMsg t) fk).2 =
      [Event.statusChanged SocketStatus.connected, Event.promiseResolved] := by
  simp [onMessage, settleOnSuccess, hset]

/-- statusEvents distributes over event concatenation. -/
lemma statusEvents_append (l1 l2 : List Event) :
    statusEvents (l1 ++ l2) = statusEvents l1 ++ statusEvents l2 := by
  simp [statusEvents]

/-- A client that has never joined a room. -/
def clientStart : Client :=
  { status := SocketStatus.disconnected
    roomParams :=
      { roomCode := "", playerName := "", passphrase := "", siteUrl := "", socketUrl := "" }
    boardState := none
    fullUpdateIntervalActive := false
    storagePfx := "bingosync-api"
    maxSocketAuthAttempts := 3
    numSocketAuthAttempts := 0
    websocketPresent := false
    settled := false
    socketKey := ""
    tokenStore := [] }

/-- The room parameters of the C8 scenario. -/
def roomR1Params : RoomParams :=
  { roomCode := "R1"
    playerName := "Alice"
    passphrase := "pass"
    siteUrl := "https://bingosync.com"
    socketUrl := "wss://sockets.bingosync.com" }

/-- Claim C8, counterexample: in the successful-join scenario (fresh client,
room R1 as Alice, token acquired, snapshot empty, first frame a non-error
authentication confirmation) the announced status values are NOT just
connecting, connected: `joinRoom` announces `connected` right after token
acquisition and the channel then announces `connecting` again before the
authenticated `connected`. -/
theorem C8_counterexample :
    clientStart.status = SocketStatus.disconnected ∧
    statusEvents (joinRoomFirstFrame clientStart roomR1Params "tok" []
        (SocketMsg.otherMsg "connection") "").2 ≠
      [SocketStatus.connecting, SocketStatus.connected] := by
  refine ⟨rfl, ?_⟩
  decide

/-- Claim C8, amended: a successful join announces exactly
connecting, connected, connecting, connected — the extra pair coming from
the premature `connected` of `joinRoom` and the `connecting` that
`_createWebsocket` announces when it opens the channel. -/
theorem C8_amended (c : Client) (p : RoomParams) (freshKey retryKey t : String)
    (raw : RawBoardState) :
    statusEvents (joinRoomFirstFrame c p freshKey raw
        (SocketMsg.otherMsg t) retryKey).2 =
      [SocketStatus.connecting, SocketStatus.connected,
       SocketStatus.connecting, SocketStatus.connected] := by
  simp only [joinRoomFirstFrame]
  rw [onMessage_other_events _ _ _ (by simp)]
  rw [statusEvents_append, statusEvents_append, statusEvents_append,
    statusEvents_fullUpdateResolve]
  simp [statusEvents]

end BingosyncApi
